import Mathlib

/-!
Shallow embedding of the flowtrace-debugger core, following the Rust sources:
  agents/rust/flowtrace-agent/src/{lib.rs, span.rs, config.rs, logger.rs}
  agents/rust/flowtrace-derive/src/lib.rs
  agents/rust/flowctl-rs/src/{analyzer.rs, instrumenter.rs}
Machine integers (i64/usize) are modelled as Int/Nat; ambient effects
(system clock, current thread id) are passed as explicit parameters; the
append-only log file is modelled as the list of events written to it.
-/

namespace FlowTrace

/-! ## Event model (flowtrace-agent/src/lib.rs) -/

/-- Mirrors `enum EventType { Enter, Exit, Exception }`. -/
inductive EventType where
  | enter
  | exit
  | exception
deriving DecidableEq

/-- Mirrors `struct TraceEvent` from lib.rs.  The serde renames
(`event`, `class`, `method`, `durationMillis`, `durationMicros`) only affect
the serialized line form, not the structure itself. -/
structure TraceEvent where
  event_type : EventType
  timestamp : Int
  module : String
  function : String
  args : Option String
  result : Option String
  exception : Option String
  duration_millis : Option Int
  duration_micros : Option Int
  thread : String
deriving DecidableEq

/-- Mirrors `TraceEvent::enter`.  The wall clock reading `now` (microseconds
since epoch, `as i64`) and the thread id string are explicit parameters. -/
def TraceEvent.enter (now : Int) (th : String) (module function : String)
    (args : Option String) : TraceEvent :=
  { event_type := EventType.enter
    timestamp := now
    module := module
    function := function
    args := args
    result := none
    exception := none
    duration_millis := none
    duration_micros := none
    thread := th }

/-- Mirrors `TraceEvent::exit`: `duration_millis = duration_micros.map(|d| d / 1000)`
with Rust `i64` division, i.e. truncation toward zero (`Int.tdiv`). -/
def TraceEvent.exit (now : Int) (th : String) (module function : String)
    (result : Option String) (duration_micros : Option Int) : TraceEvent :=
  { event_type := EventType.exit
    timestamp := now
    module := module
    function := function
    args := none
    result := result
    exception := none
    duration_millis := duration_micros.map (fun d => d.tdiv 1000)
    duration_micros := duration_micros
    thread := th }

/-- Mirrors `TraceEvent::exception`. -/
def TraceEvent.exception' (now : Int) (th : String) (module function : String)
    (error : String) (duration_micros : Option Int) : TraceEvent :=
  { event_type := EventType.exception
    timestamp := now
    module := module
    function := function
    args := none
    result := none
    exception := some error
    duration_millis := duration_micros.map (fun d => d.tdiv 1000)
    duration_micros := duration_micros
    thread := th }

/-- Number of events of a given kind in an emitted event list. -/
def countKind (es : List TraceEvent) (k : EventType) : Nat :=
  (es.filter (fun e => e.event_type == k)).length

/-! ## Config (flowtrace-agent/src/config.rs) -/

/-- Mirrors `struct Config`. -/
structure Config where
  package_prefix : String
  log_file : String
  stdout : Bool
  max_arg_length : Nat
deriving DecidableEq

/-- Mirrors `impl Default for Config`. -/
def Config.default : Config :=
  { package_prefix := ""
    log_file := "flowtrace.jsonl"
    stdout := false
    max_arg_length := 1000 }

/-! ## Logger and global tracer (logger.rs, lib.rs) -/

/-- Mirrors `struct Logger`: it holds the config and the opened append-mode
file; the file contents are modelled as the ordered list of events whose
serialized lines were appended to it. -/
structure Logger where
  config : Config
  written : List TraceEvent
deriving DecidableEq

/-- Mirrors `Logger::log`: serialize and append one line to the target. -/
def Logger.log (l : Logger) (e : TraceEvent) : Logger :=
  { l with written := l.written ++ [e] }

/-- Mirrors `Logger::new`: constructed from a config with nothing written yet. -/
def Logger.new (config : Config) : Logger :=
  { config := config, written := [] }

/-- Mirrors `start_tracing`: the global tracer state `GLOBAL_TRACER` is an
`Option<Logger>`; if it `is_some()` the call fails with the error string and
the state is left untouched, otherwise a logger is built and installed. -/
def start_tracing (st : Option Logger) (config : Config) :
    Except String Unit × Option Logger :=
  match st with
  | some _ => (Except.error "Tracer already initialized", st)
  | none => (Except.ok (), some (Logger.new config))

/-- Mirrors `stop_tracing`: drops the global logger. -/
def stop_tracing (_ : Option Logger) : Option Logger := none

/-- Mirrors `log_event`: forwards to the active logger if any, else discards. -/
def log_event (st : Option Logger) (e : TraceEvent) : Option Logger :=
  match st with
  | some l => some (l.log e)
  | none => none

/-! ## Span (flowtrace-agent/src/span.rs) -/

/-- Mirrors `struct Span` (the monotonic `start_time` is left ambient; elapsed
durations are explicit parameters of the emission functions).  The tag
`HashMap` is modelled as an association list with replace-on-insert. -/
structure Span where
  module : String
  function : String
  tags : List (String × String)
  error : Option String
deriving DecidableEq

/-- Replace-on-insert on the association list modelling `HashMap::insert`. -/
def tagsInsert : List (String × String) → String → String → List (String × String)
  | [], k, v => [(k, v)]
  | (k', v') :: rest, k, v =>
      if k' == k then (k, v) :: rest else (k', v') :: tagsInsert rest k v

/-- Mirrors `Span::new` (the `ENTER` emission it performs is
`TraceEvent.enter now th module function none`). -/
def Span.new (module function : String) : Span :=
  { module := module, function := function, tags := [], error := none }

/-- Mirrors `Span::set_tag`. -/
def Span.set_tag (s : Span) (k v : String) : Span :=
  { s with tags := tagsInsert s.tags k v }

/-- Mirrors `Span::set_error`. -/
def Span.set_error (s : Span) (e : String) : Span :=
  { s with error := some e }

/-- Rust's `vec.join(sep)` for `sep = ", "`. -/
def joinComma : List String → String
  | [] => ""
  | [s] => s
  | s :: rest => s ++ ", " ++ joinComma rest

/-- Debug rendering `format!("\x7b:?\x7d", tags)` of the tag map, in insertion
order (the order of a `HashMap`'s `Debug` output is unspecified; no claim
depends on it). -/
def debugMap (tags : List (String × String)) : String :=
  "\x7b" ++ joinComma (tags.map (fun p => "\"" ++ p.1 ++ "\": \"" ++ p.2 ++ "\"")) ++ "\x7d"

/-- The `result` snapshot computed identically in `Span::end` and in
`Drop::drop`: `None` if the tag map is empty, else its Debug rendering. -/
def Span.tags_result (s : Span) : Option String :=
  if s.tags.isEmpty then none else some (debugMap s.tags)

/-- Mirrors the single event logged by `Span::end`: `EXCEPTION` with the error
message if one was set, else `EXIT` with the tag snapshot; `d` is the elapsed
`duration_micros()`. -/
def Span.end_event (s : Span) (now : Int) (th : String) (d : Int) : TraceEvent :=
  match s.error with
  | some e => TraceEvent.exception' now th s.module s.function e (some d)
  | none => TraceEvent.exit now th s.module s.function s.tags_result (some d)

/-- Mirrors the events logged by `impl Drop for Span`: nothing while
`std::thread::panicking()`, otherwise one `EXIT` with the tag snapshot.
Note the source's `drop` inspects neither `self.error` nor any record of a
prior `end()` call. -/
def Span.drop_events (s : Span) (panicking : Bool) (now : Int) (th : String)
    (d : Int) : List TraceEvent :=
  if panicking then []
  else [TraceEvent.exit now th s.module s.function s.tags_result (some d)]

/-- Events emitted by calling `end()` in a non-unwinding scope.  In the
source `Span::end(self)` takes `self` by value and `Span` implements `Drop`
with no `mem::forget` and no ended-flag, so when `self` goes out of scope at
the end of `end()`'s own body the drop glue runs `Drop::drop` as well: the
explicit emission is followed by the automatic one.  `d₁`/`d₂` are the two
`duration_micros()` readings. -/
def Span.end_then_scope (s : Span) (now : Int) (th : String) (d₁ d₂ : Int) :
    List TraceEvent :=
  s.end_event now th d₁ :: s.drop_events false now th d₂

/-! ## Derive macro `#[trace]` (flowtrace-derive/src/lib.rs)

The generated wrapper is modelled per return-type shape.  Argument values
are represented by their `Debug`-format strings (the macro captures
`format!("{:?}", arg)`); panic payloads by `Option String` (`some` when a
`&str`/`String` message is downcastable, `none` otherwise).  The second
component of each wrapper's result is `some payload` when the call unwinds
(`resume_unwind` with the original payload), `none` on normal return. -/

/-- Mirrors the macro's `args_capture` expression: `None` for a function with
no captured arguments, else `Some(format!("\x7b\x7b\x7b\x7d\x7d\x7d", parts.join(", ")))`
where each part is `format!("\"\x7b\x7d\": \x7b:?\x7d", name, value)`. -/
def args_capture (args : List (String × String)) : Option String :=
  match args with
  | [] => none
  | _ => some ("\x7b" ++ joinComma (args.map (fun p => "\"" ++ p.1 ++ "\": " ++ p.2)) ++ "\x7d")

/-- Outcome of executing the body of a `Result`-returning function. -/
inductive ResultOutcome where
  | ok (value : String)
  | err (error : String)
  | panics (payload : Option String)
deriving DecidableEq

/-- Outcome of executing the body of a plain-value-returning function. -/
inductive PlainOutcome where
  | returns (value : String)
  | panics (payload : Option String)
deriving DecidableEq

/-- Outcome of executing the body of a function with no return value. -/
inductive VoidOutcome where
  | returns
  | panics (payload : Option String)
deriving DecidableEq

/-- Mirrors the panic-message extraction in the sync branches:
downcast to `&str` or `String`, else `"Unknown panic"`. -/
def panic_message (payload : Option String) : String :=
  match payload with
  | some s => s
  | none => "Unknown panic"

/-- Sync `Result`-returning branch of the macro: Enter is logged, the body
runs inside `catch_unwind`; `Ok` logs Exit with the value snapshot, `Err`
logs Exception with the error's Debug string, a panic logs Exception with the
extracted message and then `resume_unwind`s the original payload. -/
def trace_sync_result (now : Int) (th : String) (module function : String)
    (args : List (String × String)) (d : Int) (o : ResultOutcome) :
    List TraceEvent × Option (Option String) :=
  let enterE := TraceEvent.enter now th module function (args_capture args)
  match o with
  | .ok v => ([enterE, TraceEvent.exit now th module function (some v) (some d)], none)
  | .err e => ([enterE, TraceEvent.exception' now th module function e (some d)], none)
  | .panics p =>
      ([enterE, TraceEvent.exception' now th module function (panic_message p) (some d)], some p)

/-- Sync plain-return branch of the macro. -/
def trace_sync_plain (now : Int) (th : String) (module function : String)
    (args : List (String × String)) (d : Int) (o : PlainOutcome) :
    List TraceEvent × Option (Option String) :=
  let enterE := TraceEvent.enter now th module function (args_capture args)
  match o with
  | .returns v => ([enterE, TraceEvent.exit now th module function (some v) (some d)], none)
  | .panics p =>
      ([enterE, TraceEvent.exception' now th module function (panic_message p) (some d)], some p)

/-- Sync void branch of the macro: Exit carries the fixed `"()"` marker. -/
def trace_sync_void (now : Int) (th : String) (module function : String)
    (args : List (String × String)) (d : Int) (o : VoidOutcome) :
    List TraceEvent × Option (Option String) :=
  let enterE := TraceEvent.enter now th module function (args_capture args)
  match o with
  | .returns => ([enterE, TraceEvent.exit now th module function (some "()") (some d)], none)
  | .panics p =>
      ([enterE, TraceEvent.exception' now th module function (panic_message p) (some d)], some p)

/-- Async `Result`-returning branch: there is no `catch_unwind` around the
awaited body, so a panic propagates before the duration is read or any
further event is logged — only the Enter event exists for that call. -/
def trace_async_result (now : Int) (th : String) (module function : String)
    (args : List (String × String)) (d : Int) (o : ResultOutcome) :
    List TraceEvent × Option (Option String) :=
  let enterE := TraceEvent.enter now th module function (args_capture args)
  match o with
  | .ok v => ([enterE, TraceEvent.exit now th module function (some v) (some d)], none)
  | .err e => ([enterE, TraceEvent.exception' now th module function e (some d)], none)
  | .panics p => ([enterE], some p)

/-- Async plain-return branch: likewise no fault boundary. -/
def trace_async_plain (now : Int) (th : String) (module function : String)
    (args : List (String × String)) (d : Int) (o : PlainOutcome) :
    List TraceEvent × Option (Option String) :=
  let enterE := TraceEvent.enter now th module function (args_capture args)
  match o with
  | .returns v => ([enterE, TraceEvent.exit now th module function (some v) (some d)], none)
  | .panics p => ([enterE], some p)

/-! ## Function model shared by scanner and rewriter (flowctl-rs) -/

/-- Structural description of a parsed `ItemFn`: its name, the identifier
paths of its attributes, its body's statement count, and its modifiers. -/
structure FnDecl where
  name : String
  attrs : List String
  stmts : Nat
  is_async : Bool
  is_pub : Bool
deriving DecidableEq

/-- Parsed items of a source file.  `fnItem` is a top-level `Item::Fn`;
`modItem` a module with its nested items; `implItem` an `impl` block whose
methods are `ImplItemFn` nodes (not `ItemFn`); `otherItem` any other item. -/
inductive Item where
  | fnItem (f : FnDecl)
  | modItem (items : List Item)
  | implItem (methods : List FnDecl)
  | otherItem

/-! ## Instrumenter (flowctl-rs/src/instrumenter.rs) -/

/-- Mirrors `has_trace_attribute`. -/
def has_trace_attribute (f : FnDecl) : Bool :=
  f.attrs.any (fun a => a == "trace")

/-- Mirrors `is_test_function`: any `test`, `cfg` or `bench` attribute. -/
def is_test_function (f : FnDecl) : Bool :=
  f.attrs.any (fun a => a == "test" || a == "cfg" || a == "bench")

/-- Mirrors `should_instrument`. -/
def should_instrument (f : FnDecl) : Bool :=
  if has_trace_attribute f then false
  else if is_test_function f then false
  else if f.stmts == 0 then false
  else if f.name == "main" || f.name == "init" || f.name.startsWith "test_" then false
  else true

/-- Mirrors `add_trace_attribute`: pushes `#[trace]` onto the attribute list. -/
def add_trace_attribute (f : FnDecl) : FnDecl :=
  { f with attrs := f.attrs ++ ["trace"] }

/-- Mirrors `struct InstrumentResult`. -/
structure InstrumentResult where
  count : Nat
  functions : List String
  backup_path : Option String
deriving DecidableEq

/-- Mirrors the item loop of `Instrumenter::instrument_file`: only items
matching the `Item::Fn` pattern at the top level are examined; for each one
satisfying `should_instrument` its name is recorded and, unless `dry_run`,
the trace attribute is added in place.  Returns the recorded names in
declaration order together with the items after the loop. -/
def instrumentItems (dry_run : Bool) : List Item → List String × List Item
  | [] => ([], [])
  | Item.fnItem f :: rest =>
      let (names, rest') := instrumentItems dry_run rest
      if should_instrument f then
        (f.name :: names,
         Item.fnItem (if dry_run then f else add_trace_attribute f) :: rest')
      else
        (names, Item.fnItem f :: rest')
  | i :: rest =>
      let (names, rest') := instrumentItems dry_run rest
      (names, i :: rest')

/-- Mirrors `Instrumenter::instrument_file` after a successful read and
parse.  `path` is the file path (the backup sibling is its `.bak` variant);
the result is the returned `InstrumentResult`, the file's contents after the
call, and whether a write to the file happened. -/
def instrument_file (create_backup : Bool) (path : String) (file : List Item)
    (dry_run : Bool) : InstrumentResult × List Item × Bool :=
  let names := (instrumentItems dry_run file).1
  let items' := (instrumentItems dry_run file).2
  if !dry_run && !names.isEmpty then
    ({ count := names.length
       functions := names
       backup_path := if create_backup then some (path ++ ".bak") else none },
     items', true)
  else
    ({ count := names.length, functions := names, backup_path := none },
     file, false)

/-- Names of the top-level functions satisfying `should_instrument`, in
declaration order — the spec's description of the rewriter's selection,
stated independently of the item loop for comparison with it. -/
def spec_eligible_names : List Item → List String
  | [] => []
  | Item.fnItem f :: rest =>
      if should_instrument f then f.name :: spec_eligible_names rest
      else spec_eligible_names rest
  | _ :: rest => spec_eligible_names rest

/-! ## Analyzer (flowctl-rs/src/analyzer.rs) -/

/-- Mirrors `struct AnalysisStats`. -/
structure AnalysisStats where
  total_files : Nat
  total_functions : Nat
  instrumentable_functions : Nat
  instrumented_functions : Nat
  total_lines : Nat
  async_functions : Nat
  sync_functions : Nat
  public_functions : Nat
  private_functions : Nat
deriving DecidableEq

/-- Mirrors `AnalysisStats::default()`. -/
def AnalysisStats.init : AnalysisStats :=
  { total_files := 0, total_functions := 0, instrumentable_functions := 0
    instrumented_functions := 0, total_lines := 0, async_functions := 0
    sync_functions := 0, public_functions := 0, private_functions := 0 }

/-- Mirrors `FunctionVisitor::visit_item_fn`: counts the function, its
modifier classes, and classifies it — `trace` attribute means already
instrumented; otherwise it is instrumentable when the body is non-empty and
no `test` or `cfg` attribute is present.  (Unlike `should_instrument`, no
name rule and no `bench` attribute is consulted here.) -/
def visit_item_fn (s : AnalysisStats) (f : FnDecl) : AnalysisStats :=
  let s := { s with total_functions := s.total_functions + 1 }
  let s :=
    if f.is_async then { s with async_functions := s.async_functions + 1 }
    else { s with sync_functions := s.sync_functions + 1 }
  let s :=
    if f.is_pub then { s with public_functions := s.public_functions + 1 }
    else { s with private_functions := s.private_functions + 1 }
  let has_trace_attr := f.attrs.any (fun a => a == "trace")
  if has_trace_attr then
    { s with instrumented_functions := s.instrumented_functions + 1 }
  else
    let is_test := f.attrs.any (fun a => a == "test" || a == "cfg")
    if f.stmts > 0 && !is_test then
      { s with instrumentable_functions := s.instrumentable_functions + 1 }
    else s

mutual
/-- Mirrors the visitor dispatch on one item: an `ItemFn` is counted via
`visit_item_fn`; `visit_item` descends into a module's nested items; an
`impl` block's methods are `ImplItemFn` nodes, for which the visitor has no
override, so nothing is counted there; other items contribute nothing. -/
def visitItem (s : AnalysisStats) : Item → AnalysisStats
  | Item.fnItem f => visit_item_fn s f
  | Item.modItem items => visitItems s items
  | Item.implItem _ => s
  | Item.otherItem => s

/-- Mirrors `visitor.visit_file`: visits the items in order. -/
def visitItems (s : AnalysisStats) : List Item → AnalysisStats
  | [] => s
  | i :: rest => visitItems (visitItem s i) rest
end

/-- Parsed source file: its physical line count and its items. -/
structure SourceFile where
  lines : Nat
  items : List Item

/-- Mirrors `Analyzer::analyze_file` after a successful read and parse:
bump the line and file counters, then run the visitor. -/
def analyze_file (s : AnalysisStats) (file : SourceFile) : AnalysisStats :=
  visitItems
    { s with total_lines := s.total_lines + file.lines,
             total_files := s.total_files + 1 }
    file.items

/-- Mirrors `Analyzer::analyze_directory` over already-parsed files: pure
left-to-right accumulation from the default stats. -/
def analyze_files (files : List SourceFile) : AnalysisStats :=
  files.foldl analyze_file AnalysisStats.init

/-! ## Concrete inputs used by the scenario theorems -/

/-- Plain private sync function with one body statement and no attributes. -/
def plainFn (n : String) : FnDecl :=
  { name := n, attrs := [], stmts := 1, is_async := false, is_pub := false }

/-- Function already carrying the `#[trace]` marker. -/
def tracedFn (n : String) : FnDecl :=
  { name := n, attrs := ["trace"], stmts := 1, is_async := false, is_pub := false }

/-- Function with an empty body. -/
def emptyFn (n : String) : FnDecl :=
  { name := n, attrs := [], stmts := 0, is_async := false, is_pub := false }

/-- Scenario A, file 1: one marked function, two eligible, and `main`. -/
def demo_file1 : SourceFile :=
  { lines := 30
    items := [Item.fnItem (tracedFn "alpha"), Item.fnItem (plainFn "beta"),
              Item.fnItem (plainFn "gamma"), Item.fnItem (plainFn "main")] }

/-- Scenario A, file 2: one marked function, one eligible, and `test_x`. -/
def demo_file2 : SourceFile :=
  { lines := 20
    items := [Item.fnItem (tracedFn "delta"), Item.fnItem (plainFn "epsilonf"),
              Item.fnItem (plainFn "test_x")] }

/-- Scenario A, file 3: two eligible functions and one with an empty body. -/
def demo_file3 : SourceFile :=
  { lines := 10
    items := [Item.fnItem (plainFn "zeta"), Item.fnItem (plainFn "eta"),
              Item.fnItem (emptyFn "empty_body")] }

/-- Scenario A directory: 3 files, 10 functions, 2 marked, 5 eligible in the
rewriter's sense, 3 ineligible there by name `main` / name `test_x` / empty
body. -/
def demo_files : List SourceFile := [demo_file1, demo_file2, demo_file3]

/-- Span for the single-emission scenario: fresh, no tags, no error. -/
def c1_span : Span := Span.new "app" "work"

/-- Span for the discard-with-error scenario. -/
def c9_span : Span := Span.set_error (Span.new "app" "work") "boom"

/-- Argument snapshot string one character longer than the default
`max_arg_length` of 1000. -/
def long_arg : String := String.mk (List.replicate 1001 'a')

/-! ## Helper lemmas -/

/-- Selection lemma: the names recorded by the item loop are exactly the
top-level functions satisfying `should_instrument`, in declaration order,
for dry runs and real runs alike. -/
theorem instrumentItems_fst (d : Bool) (items : List Item) :
    (instrumentItems d items).1 = spec_eligible_names items := by
  induction items with
  | nil => rfl
  | cons i rest ih =>
    cases i with
    | fnItem f =>
      cases h : should_instrument f <;>
        simp [instrumentItems, spec_eligible_names, h, ih]
    | modItem ms => simpa [instrumentItems, spec_eligible_names] using ih
    | implItem ms => simpa [instrumentItems, spec_eligible_names] using ih
    | otherItem => simpa [instrumentItems, spec_eligible_names] using ih

/-- Adding the trace attribute makes a function ineligible. -/
theorem should_instrument_add_trace (f : FnDecl) :
    should_instrument (add_trace_attribute f) = false := by
  simp [should_instrument, has_trace_attribute, add_trace_attribute]

/-- After a mutating pass, a further pass over the resulting items selects
nothing and leaves them unchanged. -/
theorem instrumentItems_after_rewrite (d : Bool) (items : List Item) :
    instrumentItems d (instrumentItems false items).2 =
      ([], (instrumentItems false items).2) := by
  induction items with
  | nil => rfl
  | cons i rest ih =>
    cases i with
    | fnItem f =>
      cases h : should_instrument f with
      | false => simp [instrumentItems, h, ih]
      | true => simp [instrumentItems, h, should_instrument_add_trace, ih]
    | modItem ms => simp [instrumentItems, ih]
    | implItem ms => simp [instrumentItems, ih]
    | otherItem => simp [instrumentItems, ih]

/-! ## Claim theorems -/

/-- Claim C1 (code bug): in the source, `Span::end` consumes `self` yet
`Span` implements `Drop` without any ended-flag or `mem::forget`, so the drop
glue at the end of `end()` emits a second terminal event: a span ended in a
non-unwinding scope produces two terminal events, not the one the spec (and
the `Drop` impl's own comment) requires. -/
theorem span_end_then_scope_emits_twice :
    (Span.end_then_scope c1_span 0 "ThreadId(1)" 5 7).length = 2 ∧
    Span.end_then_scope c1_span 0 "ThreadId(1)" 5 7 =
      [TraceEvent.exit 0 "ThreadId(1)" "app" "work" none (some 5),
       TraceEvent.exit 0 "ThreadId(1)" "app" "work" none (some 7)] :=
  ⟨rfl, rfl⟩

/-- Claim C2, counterexample: the scanner's classifier applies no name rules,
so `main` and `test_x` (non-empty bodies, no attributes) are counted as
instrumentable and Scenario A yields `instrumentable_functions = 7`, not 5;
`main` is instrumentable to the scanner though `should_instrument` rejects it. -/
theorem scanner_scenario_a_not_five :
    (analyze_files demo_files).total_functions = 10 ∧
    (analyze_files demo_files).instrumented_functions = 2 ∧
    ¬ ((analyze_files demo_files).instrumentable_functions = 5) ∧
    should_instrument (plainFn "main") = false ∧
    (visit_item_fn AnalysisStats.init (plainFn "main")).instrumentable_functions = 1 ∧
    (visit_item_fn AnalysisStats.init (plainFn "test_x")).instrumentable_functions = 1 := by
  refine ⟨rfl, rfl, by decide, by decide, rfl, rfl⟩

/-- Claim C2, amended: the scanner's eligibility check is weaker than the
rewriter's — it only excludes trace-marked, `test`/`cfg`-attributed and
empty-bodied functions, with no name rules — so Scenario A yields
`total_functions = 10`, `instrumented = 2`, `instrumentable = 7`. -/
theorem scanner_scenario_a_amended :
    (analyze_files demo_files).total_functions = 10 ∧
    (analyze_files demo_files).instrumented_functions = 2 ∧
    (analyze_files demo_files).instrumentable_functions = 7 ∧
    (analyze_files demo_files).total_files = 3 :=
  ⟨rfl, rfl, rfl, rfl⟩

/-- Claim C3: rewriting is idempotent — running `instrument_file` (not dry)
on the contents produced by a previous non-dry run selects zero functions,
reports an empty selection and no backup, performs no mutation, and writes
nothing. -/
theorem instrument_file_idempotent (cb : Bool) (path : String) (items : List Item) :
    instrument_file cb path (instrument_file cb path items false).2.1 false =
      ({ count := 0, functions := [], backup_path := none },
       (instrument_file cb path items false).2.1, false) := by
  cases h : (instrumentItems false items).1 with
  | nil => simp [instrument_file, h]
  | cons n ns => simp [instrument_file, h, instrumentItems_after_rewrite]

/-- Claim C4: a dry run returns the count and names of the eligible top-level
functions in declaration order, reports no backup path, and leaves the file
contents untouched with no write. -/
theorem instrument_file_dry_run_frame (cb : Bool) (path : String) (items : List Item) :
    instrument_file cb path items true =
      ({ count := (spec_eligible_names items).length
         functions := spec_eligible_names items
         backup_path := none },
       items, false) := by
  simp [instrument_file, instrumentItems_fst]

set_option maxRecDepth 100000 in
/-- Claim C5, counterexample: the derive macro's argument capture performs no
truncation — an argument whose snapshot is 1001 characters long appears in
full in the Enter args string even though the default `max_arg_length` is
1000. -/
theorem args_capture_untruncated_counterexample :
    args_capture [("x", long_arg)] = some ("\x7b\"x\": " ++ long_arg ++ "\x7d") ∧
    long_arg.length = 1001 ∧
    Config.default.max_arg_length = 1000 ∧
    ((args_capture [("x", long_arg)]).getD "").length = 1008 := by
  refine ⟨by decide, by decide, rfl, by decide⟩

/-- Claim C5, amended: each captured argument is rendered in full as
`"name": value` with no length limit applied; the configured
`max_arg_length` (default 1000) is never consulted by the capture code. -/
theorem args_capture_full_snapshot :
    (∀ n v : String, args_capture [(n, v)] =
      some ("\x7b" ++ ("\"" ++ n ++ "\": " ++ v) ++ "\x7d")) ∧
    args_capture [] = none ∧
    Config.default.max_arg_length = 1000 :=
  ⟨fun _ _ => rfl, rfl, rfl⟩

/-- Claim C6: an instrumented `Result`-returning function whose body takes
the failure branch emits exactly one Enter and one Exception (carrying the
failure's description and the elapsed duration) and no Exit; the success
branch emits exactly one Exit with the success-value snapshot.  This holds
for the sync and async expansions alike. -/
theorem traced_result_function_events (now d : Int) (th m f : String)
    (args : List (String × String)) (v e : String) :
    trace_sync_result now th m f args d (ResultOutcome.err e) =
      ([TraceEvent.enter now th m f (args_capture args),
        TraceEvent.exception' now th m f e (some d)], none) ∧
    countKind (trace_sync_result now th m f args d (ResultOutcome.err e)).1 EventType.enter = 1 ∧
    countKind (trace_sync_result now th m f args d (ResultOutcome.err e)).1 EventType.exception = 1 ∧
    countKind (trace_sync_result now th m f args d (ResultOutcome.err e)).1 EventType.exit = 0 ∧
    trace_sync_result now th m f args d (ResultOutcome.ok v) =
      ([TraceEvent.enter now th m f (args_capture args),
        TraceEvent.exit now th m f (some v) (some d)], none) ∧
    countKind (trace_sync_result now th m f args d (ResultOutcome.ok v)).1 EventType.exit = 1 ∧
    countKind (trace_sync_result now th m f args d (ResultOutcome.ok v)).1 EventType.exception = 0 ∧
    trace_async_result now th m f args d (ResultOutcome.err e) =
      ([TraceEvent.enter now th m f (args_capture args),
        TraceEvent.exception' now th m f e (some d)], none) ∧
    countKind (trace_async_result now th m f args d (ResultOutcome.err e)).1 EventType.exit = 0 :=
  ⟨rfl, rfl, rfl, rfl, rfl, rfl, rfl, rfl, rfl⟩

/-- Claim C7, counterexample: the async expansions wrap no fault boundary
around the awaited body — an async instrumented function that panics emits
only the Enter event, no Exception, before the fault propagates. -/
theorem async_panic_emits_no_exception :
    trace_async_plain 0 "ThreadId(1)" "app" "work" [] 5 (PlainOutcome.panics (some "boom")) =
      ([TraceEvent.enter 0 "ThreadId(1)" "app" "work" none], some (some "boom")) ∧
    countKind (trace_async_plain 0 "ThreadId(1)" "app" "work" [] 5
      (PlainOutcome.panics (some "boom"))).1 EventType.exception = 0 ∧
    trace_async_result 0 "ThreadId(1)" "app" "work" [] 5 (ResultOutcome.panics (some "boom")) =
      ([TraceEvent.enter 0 "ThreadId(1)" "app" "work" none], some (some "boom")) :=
  ⟨rfl, rfl, rfl⟩

/-- Claim C7, amended: for synchronous instrumented functions of every
return shape, a panic in the body emits one Exception event with the
extracted message (fallback `"Unknown panic"`) and the elapsed duration and
then re-raises the original payload unchanged; asynchronous functions have no
fault boundary, so the original payload propagates with only the Enter event
emitted. -/
theorem panic_interception_sync_only (now d : Int) (th m f : String)
    (args : List (String × String)) (p : Option String) (msg : String) :
    trace_sync_plain now th m f args d (PlainOutcome.panics p) =
      ([TraceEvent.enter now th m f (args_capture args),
        TraceEvent.exception' now th m f (panic_message p) (some d)], some p) ∧
    trace_sync_result now th m f args d (ResultOutcome.panics p) =
      ([TraceEvent.enter now th m f (args_capture args),
        TraceEvent.exception' now th m f (panic_message p) (some d)], some p) ∧
    trace_sync_void now th m f args d (VoidOutcome.panics p) =
      ([TraceEvent.enter now th m f (args_capture args),
        TraceEvent.exception' now th m f (panic_message p) (some d)], some p) ∧
    panic_message (some msg) = msg ∧
    panic_message none = "Unknown panic" ∧
    trace_async_plain now th m f args d (PlainOutcome.panics p) =
      ([TraceEvent.enter now th m f (args_capture args)], some p) ∧
    trace_async_result now th m f args d (ResultOutcome.panics p) =
      ([TraceEvent.enter now th m f (args_capture args)], some p) :=
  ⟨rfl, rfl, rfl, rfl, rfl, rfl, rfl⟩

/-- Claim C8: a second `start_tracing` while a logger is installed returns
the already-initialized error and leaves the state untouched; the first
logger stays active and still receives subsequently logged events by
appending them to its output. -/
theorem start_tracing_twice_already_started (l : Logger) (cfg : Config) (e : TraceEvent) :
    start_tracing (some l) cfg = (Except.error "Tracer already initialized", some l) ∧
    log_event (start_tracing (some l) cfg).2 e = some (Logger.log l e) ∧
    (Logger.log l e).written = l.written ++ [e] :=
  ⟨rfl, rfl, rfl⟩

/-- Claim C9, counterexample: a span with an error set that is discarded
without `end()` in a non-unwinding scope emits an EXIT event (with no
exception field), not the Exception the claim requires. -/
theorem span_drop_ignores_error_counterexample :
    c9_span.error = some "boom" ∧
    Span.drop_events c9_span false 0 "ThreadId(1)" 5 =
      [TraceEvent.exit 0 "ThreadId(1)" "app" "work" none (some 5)] ∧
    countKind (Span.drop_events c9_span false 0 "ThreadId(1)" 5) EventType.exception = 0 ∧
    (Span.drop_events c9_span false 0 "ThreadId(1)" 5).length = 1 :=
  ⟨rfl, rfl, rfl, rfl⟩

/-- Claim C9, amended: a span discarded without `end()` while no fault is
unwinding emits exactly one event, always an EXIT carrying the tag snapshot
(absent when no tags were set) — any error set on the span is ignored by the
discard path; while a fault is unwinding, nothing is emitted. -/
theorem span_drop_emits_exit_only (s : Span) (now d : Int) (th : String) :
    Span.drop_events s true now th d = [] ∧
    Span.drop_events s false now th d =
      [TraceEvent.exit now th s.module s.function s.tags_result (some d)] ∧
    (Span.drop_events s false now th d).length = 1 ∧
    countKind (Span.drop_events s false now th d) EventType.exception = 0 :=
  ⟨rfl, rfl, rfl, rfl⟩

/-- Claim C10: the rewriter's item loop looks only at top-level `Item::Fn`
items — items nested inside a module or an `impl` block contribute nothing to
the selection and are never mutated, whatever they contain; the selection is
exactly the eligible top-level names in declaration order.  The scanner, by
contrast, descends into a module's nested items. -/
theorem instrumenter_top_level_only (d : Bool) (inner : List Item)
    (ms : List FnDecl) (items : List Item) (s : AnalysisStats) :
    (instrumentItems d (Item.modItem inner :: items)).1 = (instrumentItems d items).1 ∧
    (instrumentItems d (Item.implItem ms :: items)).1 = (instrumentItems d items).1 ∧
    (instrumentItems d (Item.modItem inner :: items)).2 =
      Item.modItem inner :: (instrumentItems d items).2 ∧
    (instrumentItems d (Item.implItem ms :: items)).2 =
      Item.implItem ms :: (instrumentItems d items).2 ∧
    (instrumentItems d items).1 = spec_eligible_names items ∧
    visitItem s (Item.modItem inner) = visitItems s inner :=
  ⟨rfl, rfl, rfl, rfl, instrumentItems_fst d items, rfl⟩

end FlowTrace
